import Mathlib

/-!
# Verification of the customer balance tracker core (chatbot.py)

Shallow embedding of the balance-update and persistence-consistency core of
`src/chatbot.py`:

* the Record Store (`load_data`, `save_data`, the CSV-shaped stored table),
* the Balance Ledger (`add_new_customer`, `update_customer_add_payment`,
  the "Save Edited Table" bulk-reconciliation handler, `compute_status`).

Modelling decisions, each traceable to the source:

* Python floats are modelled as `ℚ` (the program only adds, subtracts and
  compares; all the values of interest are exact decimals).
* A stored CSV cell in a numeric column is a `Cell`: either a value that
  parses as a number, a piece of text that does not, or an empty cell.
  `pd.to_numeric(col, errors="coerce").fillna(0.0)` is `toNumericCoerce`
  (non-numbers and blanks become `0`).  A numeric column missing from the
  stored file is handled by the source by inserting `0.0` everywhere
  (chatbot.py lines 28-30), which coincides with a column of `Cell.missing`
  cells, so column absence for the three numeric columns needs no separate
  flag.  The `STATUS` column is different: the source recomputes it only
  `if "STATUS" not in df.columns` (line 35), so table-level presence of that
  column (`hasStatusCol`) is part of the stored-table state.
* `datetime.now()` is nondeterministic input; every operation takes the
  current timestamp string as an explicit `date_now` argument.
* Each mutating operation returns `Except AppError RawTable`: `.ok s` means
  the operation ran `save_data` and `s` is the newly persisted file;
  `.error e` means the operation returned before reaching `save_data`
  (an `st.warning`/`st.error` branch), leaving the persisted file untouched.
  So "no partial state change on error" is by construction visible as the
  absence of a produced table.
-/

namespace DebtTracker

/-- A cell of a numeric CSV column as `pd.read_csv` sees it: a value that
parses as a number, a non-numeric text value, or an empty/missing value. -/
inductive Cell where
  | num (q : ℚ)
  | text (s : String)
  | missing
deriving DecidableEq, Repr

/-- `pd.to_numeric(·, errors="coerce").fillna(0.0)` on one cell: numbers
survive, text coerces to NaN and is filled with `0.0`, blanks likewise
(chatbot.py lines 31-32). -/
def toNumericCoerce : Cell → ℚ
  | .num q => q
  | .text _ => 0
  | .missing => 0

/-- Does the cell parse as a number? -/
def Cell.isNum : Cell → Bool
  | .num _ => true
  | _ => false

/-- One row of the stored CSV file, in the canonical column order
`DATE, CUSTOMER NAME, AMOUNT OWED, BALANCE PAID, BALANCE AS OF TODAY,
STATUS` (chatbot.py lines 9-16).  `DATE`, `CUSTOMER NAME` and `STATUS` are
read and written as plain strings; the three numeric columns are raw cells
subject to coercion on load. -/
structure RawRow where
  date : String
  customer_name : String
  amount_owed : Cell
  balance_paid : Cell
  balance_as_of_today : Cell
  status : String
deriving DecidableEq, Repr

/-- The stored CSV file: its data rows, plus whether the `STATUS` column is
present (load recomputes `STATUS` only when the column is absent,
chatbot.py lines 35-36). -/
structure RawTable where
  rows : List RawRow
  hasStatusCol : Bool
deriving DecidableEq, Repr

/-- One row of the in-memory dataframe after `load_data`: the numeric
columns hold numbers. -/
structure Row where
  date : String
  customer_name : String
  amount_owed : ℚ
  balance_paid : ℚ
  balance_as_of_today : ℚ
  status : String
deriving DecidableEq, Repr

/-- `compute_status` (chatbot.py lines 44-45): Cleared iff the balance is
`<= 0`. -/
def compute_status (balance : ℚ) : String :=
  if balance ≤ 0 then "Cleared ✅" else "Pending ⏳"

/-- Load-time normalization of one row (chatbot.py lines 28-36):
`AMOUNT OWED` and `BALANCE PAID` are numerically coerced, then
`BALANCE AS OF TODAY` is unconditionally recomputed as
`(AMOUNT OWED - BALANCE PAID).clip(lower=0.0)`, discarding whatever the
stored cell held; `STATUS` is recomputed from that balance only when the
stored file has no `STATUS` column, otherwise the stored string is kept. -/
def load_row (hasStatusCol : Bool) (r : RawRow) : Row :=
  let amount := toNumericCoerce r.amount_owed
  let paid := toNumericCoerce r.balance_paid
  let balance := max (amount - paid) 0
  { date := r.date
    customer_name := r.customer_name
    amount_owed := amount
    balance_paid := paid
    balance_as_of_today := balance
    status := if hasStatusCol then r.status else compute_status balance }

/-- `load_data` (chatbot.py lines 24-37): row-wise normalization of the
stored table. -/
def load_data (store : RawTable) : List Row :=
  store.rows.map (load_row store.hasStatusCol)

/-- Serialization of one in-memory row back to CSV cells. -/
def save_row (r : Row) : RawRow :=
  { date := r.date
    customer_name := r.customer_name
    amount_owed := .num r.amount_owed
    balance_paid := .num r.balance_paid
    balance_as_of_today := .num r.balance_as_of_today
    status := r.status }

/-- `save_data` (chatbot.py lines 39-42): reindex to the canonical column
set (the in-memory `Row` already has exactly those fields, in order) and
rewrite the whole file; the written file always has a `STATUS` column. -/
def save_data (df : List Row) : RawTable :=
  { rows := df.map save_row, hasStatusCol := true }

/-- Python `str.strip()`: drop leading and trailing whitespace. -/
def pyStrip (s : String) : String :=
  String.mk (((s.data.dropWhile Char.isWhitespace).reverse.dropWhile
    Char.isWhitespace).reverse)

/-- Worker for Python `str.title()`: an alphabetic character is uppercased
when the previous character was not alphabetic and lowercased otherwise;
non-alphabetic characters pass through and reset the word boundary. -/
def pyTitleGo : List Char → Bool → List Char
  | [], _ => []
  | c :: cs, prevAlpha =>
    if c.isAlpha then
      (if prevAlpha then c.toLower else c.toUpper) :: pyTitleGo cs true
    else
      c :: pyTitleGo cs false

/-- Python `str.title()`. -/
def pyTitle (s : String) : String :=
  String.mk (pyTitleGo s.data false)

/-- The name normalization `name.strip().title()` used at chatbot.py
lines 50 and 75. -/
def normalize_name (name : String) : String :=
  pyTitle (pyStrip name)

/-- The error outcomes of the two ledger mutations: the `st.warning` for an
empty name (chatbot.py lines 51-53 and 76-78), the `st.warning` for a
duplicate name on create (lines 54-56), and the `st.error` for an unknown
name on update (lines 79-81). -/
inductive AppError where
  | validation (msg : String)
  | duplicate (key : String)
  | notFound
deriving DecidableEq, Repr

/-- Index of the first row whose `CUSTOMER NAME` equals `key`:
`df.index[df["CUSTOMER NAME"] == key][0]` (chatbot.py line 82).  `none`
exactly when `key not in df["CUSTOMER NAME"].values`. -/
def first_match_idx (key : String) : List Row → Option Nat
  | [] => none
  | r :: rs =>
    if r.customer_name = key then some 0
    else (first_match_idx key rs).map (· + 1)

/-- The freshly created row of `add_new_customer`
(chatbot.py lines 57-68). -/
def new_customer_row (key : String) (amount_owed payment_now : ℚ)
    (date_now : String) : Row :=
  let balance_paid := payment_now
  let balance_as_of_today := max (amount_owed - balance_paid) 0
  { date := date_now
    customer_name := key
    amount_owed := amount_owed
    balance_paid := balance_paid
    balance_as_of_today := balance_as_of_today
    status := compute_status balance_as_of_today }

/-- `add_new_customer` (chatbot.py lines 48-71): load, normalize the name,
reject an empty or duplicate name before any mutation, otherwise append the
new row and persist the full table. -/
def add_new_customer (store : RawTable) (name : String)
    (amount_owed payment_now : ℚ) (date_now : String) :
    Except AppError RawTable :=
  let df := load_data store
  let key := normalize_name name
  if key = "" then
    .error (.validation "Enter customer name.")
  else if key ∈ df.map Row.customer_name then
    .error (.duplicate key)
  else
    .ok (save_data (df ++ [new_customer_row key amount_owed payment_now date_now]))

/-- The in-place update of the matched row in `update_customer_add_payment`
(chatbot.py lines 84-95): `BALANCE PAID` accumulates the payment, the
balance is recomputed from the updated accumulator unless a manual override
is supplied (clipped at zero), `DATE` is refreshed and `STATUS` derived
from the final balance. -/
def updated_row (r : Row) (payment_now : ℚ) (set_balance_manual : Option ℚ)
    (date_now : String) : Row :=
  let new_paid := r.balance_paid + payment_now
  let computed_balance := max (r.amount_owed - new_paid) 0
  let new_balance :=
    match set_balance_manual with
    | none => computed_balance
    | some m => max m 0
  { r with
    balance_paid := new_paid
    balance_as_of_today := new_balance
    date := date_now
    status := compute_status new_balance }

/-- `update_customer_add_payment` (chatbot.py lines 73-97): load, normalize
the name, reject an empty name, fail when no row matches, otherwise update
the first matching row in place and persist the full table.  The inner
`match` on `df[idx]?` mirrors `df.at[idx, ...]`; its `none` branch is
unreachable because `first_match_idx` only returns indices of existing
rows. -/
def update_customer_add_payment (store : RawTable) (name : String)
    (payment_now : ℚ) (set_balance_manual : Option ℚ) (date_now : String) :
    Except AppError RawTable :=
  let df := load_data store
  let key := normalize_name name
  if key = "" then
    .error (.validation "Select customer.")
  else
    match first_match_idx key df with
    | none => .error .notFound
    | some idx =>
      match df[idx]? with
      | none => .error .notFound
      | some r =>
        .ok (save_data (df.set idx (updated_row r payment_now set_balance_manual date_now)))

/-- The per-row effect of the "Save Edited Table" handler
(chatbot.py lines 167-171): clip the edited balance at zero and derive the
status from the clipped value; every other field is untouched. -/
def reconcile_row (r : Row) : Row :=
  let b := max r.balance_as_of_today 0
  { r with balance_as_of_today := b, status := compute_status b }

/-- The "Save Edited Table" handler (chatbot.py lines 167-171), the
`reconcile_table` operation of the spec: takes the externally edited
dataframe, clips every `BALANCE AS OF TODAY` at zero, recomputes every
`STATUS` from the clipped value, and persists the full table.  It performs
no validation at all (total function). -/
def reconcile_table (edited : List Row) : RawTable :=
  save_data (edited.map reconcile_row)

/-! ## Helper lemmas -/

/-- A result of `first_match_idx` points at an existing row whose name is
the key. -/
theorem first_match_idx_some {key : String} :
    ∀ {l : List Row} {i : ℕ}, first_match_idx key l = some i →
      ∃ r, l[i]? = some r ∧ r.customer_name = key := by
  intro l
  induction l with
  | nil => intro i h; simp [first_match_idx] at h
  | cons r rs ih =>
    intro i h
    simp only [first_match_idx] at h
    split at h
    · next hr => cases h; exact ⟨r, List.getElem?_cons_zero, hr⟩
    · next hr =>
      obtain ⟨j, hj, rfl⟩ := Option.map_eq_some'.mp h
      obtain ⟨r', hr', hk⟩ := ih hj
      exact ⟨r', by simpa using hr', hk⟩

/-- All rows strictly before a `first_match_idx` result fail the match. -/
theorem first_match_idx_min {key : String} :
    ∀ {l : List Row} {i : ℕ}, first_match_idx key l = some i →
      ∀ k, k < i → ∀ x, l[k]? = some x → x.customer_name ≠ key := by
  intro l
  induction l with
  | nil => intro i h; simp [first_match_idx] at h
  | cons r rs ih =>
    intro i h k hk x hx
    simp only [first_match_idx] at h
    split at h
    · cases h; omega
    · next hr =>
      obtain ⟨j, hj, rfl⟩ := Option.map_eq_some'.mp h
      cases k with
      | zero =>
        rw [List.getElem?_cons_zero] at hx
        cases hx
        exact hr
      | succ k' =>
        exact ih hj k' (by omega) x (by simpa using hx)

/-- When no row carries the key, `first_match_idx` finds nothing — the
Python `key not in df["CUSTOMER NAME"].values` test. -/
theorem first_match_idx_eq_none {key : String} :
    ∀ {l : List Row}, (∀ r ∈ l, r.customer_name ≠ key) →
      first_match_idx key l = none := by
  intro l
  induction l with
  | nil => intro _; rfl
  | cons r rs ih =>
    intro h
    simp only [first_match_idx]
    rw [if_neg (h r (by simp)), ih (fun x hx => h x (by simp [hx]))]
    rfl

/-- Success shape of `update_customer_add_payment`: with a non-empty
normalized name and a first match at index `i` holding row `r`, the
operation persists the loaded table with exactly that row replaced. -/
theorem update_ok {store : RawTable} {name : String} {payment_now : ℚ}
    {ov : Option ℚ} {d : String} {i : ℕ} {r : Row}
    (hne : normalize_name name ≠ "")
    (hfind : first_match_idx (normalize_name name) (load_data store) = some i)
    (hget : (load_data store)[i]? = some r) :
    update_customer_add_payment store name payment_now ov d =
      .ok (save_data ((load_data store).set i
        (updated_row r payment_now ov d))) := by
  simp only [update_customer_add_payment, if_neg hne, hfind, hget]

/-- Success shape of `add_new_customer`: with a non-empty, non-duplicate
normalized name, the operation persists the loaded table with the new row
appended. -/
theorem add_ok {store : RawTable} {name : String} {a p : ℚ} {d : String}
    (hne : normalize_name name ≠ "")
    (habs : normalize_name name ∉ (load_data store).map Row.customer_name) :
    add_new_customer store name a p d =
      .ok (save_data (load_data store ++
        [new_customer_row (normalize_name name) a p d])) := by
  simp only [add_new_customer, if_neg hne, if_neg habs]

/-- Duplicate shape of `add_new_customer`: a normalized name already among
the stored names is rejected. -/
theorem add_duplicate {store : RawTable} {name : String} {a p : ℚ}
    {d : String}
    (hne : normalize_name name ≠ "")
    (hmem : normalize_name name ∈ (load_data store).map Row.customer_name) :
    add_new_customer store name a p d =
      .error (.duplicate (normalize_name name)) := by
  simp only [add_new_customer, if_neg hne, if_pos hmem]

/-- Loading a saved row keeps every field except the balance, which is
recomputed from the (kept) amount and accumulator. -/
theorem load_row_save_row (r : Row) :
    load_row true (save_row r) =
      { r with balance_as_of_today := max (r.amount_owed - r.balance_paid) 0 } :=
  rfl

/-- Loading a freshly saved table recomputes each balance and keeps every
other field. -/
theorem load_save (df : List Row) :
    load_data (save_data df) = df.map (fun r =>
      { r with balance_as_of_today := max (r.amount_owed - r.balance_paid) 0 }) := by
  simp only [load_data, save_data, List.map_map]
  rfl

/-- Counting rows by name is invariant under a save/load round trip, since
the round trip only rewrites balances. -/
theorem load_save_countP (df : List Row) (key : String) :
    (load_data (save_data df)).countP (fun r => r.customer_name = key)
      = df.countP (fun r => r.customer_name = key) := by
  induction df with
  | nil => rfl
  | cons r rs ih =>
    simp only [load_data, save_data, List.map_cons, List.countP_cons] at ih ⊢
    rw [ih]
    rfl

/-! ## Claims

Batteries marks `Rat.add` and `Rat.sub` `@[irreducible]`, which blocks the
`decide` elaboration of concrete witnesses; reducibility attributes are
elaborator hints only, so restoring the default locally changes no
semantics. -/

attribute [local semireducible] Rat.add Rat.sub

/-- C1: for a table holding a record matched by the normalized argument
name, `apply_payment` adds `payment_now` to that record's `balance_paid`;
without a manual override the balance becomes
`max(amount_owed - updated balance_paid, 0)`, with one it becomes
`max(override, 0)` while the accumulator still accumulates; the status is
derived from the final balance and the full table is persisted.  The match
hypotheses are stated through `first_match_idx`, which compares the stored
`CUSTOMER NAME` against the normalized argument exactly as chatbot.py
line 82 does (stored names written by the ledger are already
normalized). -/
theorem apply_payment_accumulates_and_overrides
    (store : RawTable) (name : String) (payment_now : ℚ) (ov : Option ℚ)
    (d : String) (i : ℕ) (r : Row)
    (hne : normalize_name name ≠ "")
    (hfind : first_match_idx (normalize_name name) (load_data store) = some i)
    (hget : (load_data store)[i]? = some r) :
    update_customer_add_payment store name payment_now ov d =
      .ok (save_data ((load_data store).set i
        { date := d
          customer_name := r.customer_name
          amount_owed := r.amount_owed
          balance_paid := r.balance_paid + payment_now
          balance_as_of_today :=
            match ov with
            | none => max (r.amount_owed - (r.balance_paid + payment_now)) 0
            | some m => max m 0
          status := compute_status
            (match ov with
              | none => max (r.amount_owed - (r.balance_paid + payment_now)) 0
              | some m => max m 0) })) := by
  rw [update_ok hne hfind hget]
  rfl

/-- Witness for C1, instantiating both spec examples: from
`amount_owed = 1000, balance_paid = 200`, a payment of `300` without
override persists `balance_paid = 500, balance_as_of_today = 500`, and
with `manual_override = 999` persists `balance_paid = 500,
balance_as_of_today = 999`. -/
theorem apply_payment_accumulates_and_overrides_witness :
    update_customer_add_payment
        ⟨[⟨"D1", "Alice", .num 1000, .num 200, .num 800, "Pending ⏳"⟩], true⟩
        "alice" 300 none "D2" =
      .ok ⟨[⟨"D2", "Alice", .num 1000, .num 500, .num 500, "Pending ⏳"⟩], true⟩ ∧
    update_customer_add_payment
        ⟨[⟨"D1", "Alice", .num 1000, .num 200, .num 800, "Pending ⏳"⟩], true⟩
        "alice" 300 (some 999) "D2" =
      .ok ⟨[⟨"D2", "Alice", .num 1000, .num 500, .num 999, "Pending ⏳"⟩], true⟩ := by
  constructor
  · rw [apply_payment_accumulates_and_overrides
      ⟨[⟨"D1", "Alice", .num 1000, .num 200, .num 800, "Pending ⏳"⟩], true⟩
      "alice" 300 none "D2" 0 ⟨"D1", "Alice", 1000, 200, 800, "Pending ⏳"⟩
      (by decide) (by decide) (by decide)]
    exact congrArg Except.ok (by decide)
  · rw [apply_payment_accumulates_and_overrides
      ⟨[⟨"D1", "Alice", .num 1000, .num 200, .num 800, "Pending ⏳"⟩], true⟩
      "alice" 300 (some 999) "D2" 0 ⟨"D1", "Alice", 1000, 200, 800, "Pending ⏳"⟩
      (by decide) (by decide) (by decide)]
    exact congrArg Except.ok (by decide)

/-- C6: an empty normalized name aborts `add_new_customer` with the
validation error, and a normalized name matching no record aborts
`update_customer_add_payment` with the not-found error; in both cases the
operation returns before `save_data`, so the persisted table is untouched
(an `.error` result carries no new table). -/
theorem errors_abort_without_state_change :
    (∀ (store : RawTable) (name : String) (a p : ℚ) (d : String),
        normalize_name name = "" →
        add_new_customer store name a p d =
          .error (.validation "Enter customer name.")) ∧
    (∀ (store : RawTable) (name : String) (p : ℚ) (ov : Option ℚ) (d : String),
        normalize_name name ≠ "" →
        (∀ r ∈ load_data store, r.customer_name ≠ normalize_name name) →
        update_customer_add_payment store name p ov d = .error .notFound) := by
  constructor
  · intro store name a p d h
    simp only [add_new_customer, if_pos h]
  · intro store name p ov d hne habs
    simp only [update_customer_add_payment, if_neg hne,
      first_match_idx_eq_none habs]

/-- Witness for C6: a whitespace-only name is rejected on create, and an
unknown name is rejected on update, each without producing a table. -/
theorem errors_abort_without_state_change_witness :
    add_new_customer ⟨[], true⟩ "   " 5 5 "D" =
      .error (.validation "Enter customer name.") ∧
    update_customer_add_payment
        ⟨[⟨"D", "Alice", .num 10, .num 0, .num 10, "Pending ⏳"⟩], true⟩
        "Bob" 5 none "D2" = .error .notFound :=
  ⟨errors_abort_without_state_change.1 ⟨[], true⟩ "   " 5 5 "D" (by decide),
   errors_abort_without_state_change.2
     ⟨[⟨"D", "Alice", .num 10, .num 0, .num 10, "Pending ⏳"⟩], true⟩
     "Bob" 5 none "D2" (by decide) (by decide)⟩

/-- C8: the "Save Edited Table" handler clips every row's balance at zero,
derives every row's status from the clipped value, leaves every other
field (including `amount_owed` and `balance_paid`) untouched, and persists
the full table; it imposes no hypothesis relating the edited balance to
`amount_owed` or `balance_paid` — it is total over all edited tables. -/
theorem reconcile_clips_and_derives (edited : List Row) (i : ℕ) (r : Row)
    (hget : edited[i]? = some r) :
    (reconcile_table edited).hasStatusCol = true ∧
    (reconcile_table edited).rows.length = edited.length ∧
    (reconcile_table edited).rows[i]? = some
      { date := r.date
        customer_name := r.customer_name
        amount_owed := .num r.amount_owed
        balance_paid := .num r.balance_paid
        balance_as_of_today := .num (max r.balance_as_of_today 0)
        status := compute_status (max r.balance_as_of_today 0) } := by
  refine ⟨rfl, by simp [reconcile_table, save_data], ?_⟩
  simp only [reconcile_table, save_data, List.map_map, List.getElem?_map,
    hget, Option.map_some']
  rfl

/-- Witness for C8: a row whose edited balance `7` exceeds
`amount_owed - balance_paid = 3` is accepted unvalidated and persisted
with balance `7` and status derived from it; a negative edited balance
would be clipped (here the clip leaves `7`). -/
theorem reconcile_clips_and_derives_witness :
    (reconcile_table [⟨"D", "Alice", 3, 0, 7, "x"⟩]).hasStatusCol = true ∧
    (reconcile_table [⟨"D", "Alice", 3, 0, 7, "x"⟩]).rows.length =
      [(⟨"D", "Alice", 3, 0, 7, "x"⟩ : Row)].length ∧
    (reconcile_table [⟨"D", "Alice", 3, 0, 7, "x"⟩]).rows[0]? = some
      { date := "D"
        customer_name := "Alice"
        amount_owed := .num 3
        balance_paid := .num 0
        balance_as_of_today := .num (max 7 0)
        status := compute_status (max 7 0) } :=
  reconcile_clips_and_derives [⟨"D", "Alice", 3, 0, 7, "x"⟩] 0
    ⟨"D", "Alice", 3, 0, 7, "x"⟩ (by decide)

/-- C4: two `add_new_customer` calls whose names normalize to the same
non-empty key, against a table that does not yet hold that key, succeed
then fail: the second call is rejected as a duplicate before any mutation
(an `.error` result carries no new table), and the table persisted by the
first call holds exactly one record with that key.  The hypothesis `habs`
is the stored-name form of "no record with that normalized name yet": the
ledger writes names already normalized, and chatbot.py line 54 compares
stored names verbatim. -/
theorem add_duplicate_rejected (store : RawTable) (n1 n2 : String)
    (a1 p1 a2 p2 : ℚ) (d1 d2 : String)
    (hsame : normalize_name n1 = normalize_name n2)
    (hne : normalize_name n1 ≠ "")
    (habs : ∀ r ∈ load_data store, r.customer_name ≠ normalize_name n1) :
    ∃ s1 : RawTable,
      add_new_customer store n1 a1 p1 d1 = .ok s1 ∧
      add_new_customer s1 n2 a2 p2 d2 =
        .error (.duplicate (normalize_name n1)) ∧
      (load_data s1).countP
        (fun r => r.customer_name = normalize_name n1) = 1 := by
  have habs' : normalize_name n1 ∉ (load_data store).map Row.customer_name := by
    simp only [List.mem_map, not_exists]
    rintro r ⟨hr, hname⟩
    exact habs r hr hname
  refine ⟨_, add_ok hne habs', ?_, ?_⟩
  · have hne2 : normalize_name n2 ≠ "" := hsame ▸ hne
    have hmem2 : normalize_name n2 ∈
        (load_data (save_data (load_data store ++
          [new_customer_row (normalize_name n1) a1 p1 d1]))).map Row.customer_name := by
      rw [load_save, ← hsame, List.map_map]
      refine List.mem_map.mpr ⟨new_customer_row (normalize_name n1) a1 p1 d1, ?_, rfl⟩
      simp
    rw [add_duplicate hne2 hmem2, hsame]
  · rw [load_save_countP, List.countP_append,
      List.countP_eq_zero.mpr (fun a ha => by simpa using habs a ha)]
    simp [new_customer_row]

/-- Witness for C4: on an empty table, `add_new_customer("Carol", ...)`
succeeds and `add_new_customer(" carol ", ...)` is then rejected as a
duplicate, leaving exactly one "Carol" record. -/
theorem add_duplicate_rejected_witness :
    ∃ s1 : RawTable,
      add_new_customer ⟨[], true⟩ "Carol" 10 2 "D1" = .ok s1 ∧
      add_new_customer s1 " carol " 10 2 "D2" =
        .error (.duplicate (normalize_name "Carol")) ∧
      (load_data s1).countP
        (fun r => r.customer_name = normalize_name "Carol") = 1 :=
  add_duplicate_rejected ⟨[], true⟩ "Carol" " carol " 10 2 10 2 "D1" "D2"
    (by decide) (by decide) (by decide)

/-- C9: neither ledger mutation validates the sign of its numeric
arguments.  A negative `payment_now` on an existing record succeeds and
persists `balance_paid = previous + payment_now`, a strict decrease; and
`add_new_customer` persists any `payment_now` — negative included —
verbatim as the new record's `balance_paid` (no sign hypothesis appears
in the second part). -/
theorem negative_payment_not_validated :
    (∀ (store : RawTable) (name : String) (p : ℚ) (d : String) (i : ℕ) (r : Row),
        normalize_name name ≠ "" →
        first_match_idx (normalize_name name) (load_data store) = some i →
        (load_data store)[i]? = some r →
        p < 0 →
        ∃ (s : RawTable) (rr : RawRow),
          update_customer_add_payment store name p none d = .ok s ∧
          s.rows[i]? = some rr ∧
          rr.balance_paid = .num (r.balance_paid + p) ∧
          r.balance_paid + p < r.balance_paid) ∧
    (∀ (store : RawTable) (name : String) (a p : ℚ) (d : String),
        normalize_name name ≠ "" →
        (∀ r ∈ load_data store, r.customer_name ≠ normalize_name name) →
        ∃ (s : RawTable) (rr : RawRow),
          add_new_customer store name a p d = .ok s ∧
          s.rows.getLast? = some rr ∧
          rr.balance_paid = .num p) := by
  constructor
  · intro store name p d i r hne hfind hget hp
    have hlen : i < (load_data store).length :=
      (List.getElem?_eq_some_iff.mp hget).1
    refine ⟨_, save_row (updated_row r p none d), update_ok hne hfind hget,
      ?_, rfl, by linarith⟩
    simp only [save_data, List.getElem?_map,
      List.getElem?_set_self (by simpa using hlen), Option.map_some']
  · intro store name a p d hne habs
    have habs' : normalize_name name ∉ (load_data store).map Row.customer_name := by
      simp only [List.mem_map, not_exists]
      rintro r ⟨hr, hname⟩
      exact habs r hr hname
    refine ⟨_, save_row (new_customer_row (normalize_name name) a p d),
      add_ok hne habs', ?_, rfl⟩
    simp only [save_data, List.map_append]
    exact List.getLast?_concat _

/-- Witness for C9: a payment of `-3` against `balance_paid = 4` persists
`balance_paid = 1`, and creating "Bob" with `payment_now = -2` persists
`balance_paid = -2`. -/
theorem negative_payment_not_validated_witness :
    (∃ (s : RawTable) (rr : RawRow),
      update_customer_add_payment
          ⟨[⟨"D", "Alice", .num 10, .num 4, .num 6, "Pending ⏳"⟩], true⟩
          "Alice" (-3) none "D2" = .ok s ∧
      s.rows[0]? = some rr ∧
      rr.balance_paid = .num ((4 : ℚ) + (-3)) ∧
      (4 : ℚ) + (-3) < 4) ∧
    (∃ (s : RawTable) (rr : RawRow),
      add_new_customer ⟨[], true⟩ "Bob" 10 (-2) "D1" = .ok s ∧
      s.rows.getLast? = some rr ∧
      rr.balance_paid = .num (-2)) :=
  ⟨negative_payment_not_validated.1
      ⟨[⟨"D", "Alice", .num 10, .num 4, .num 6, "Pending ⏳"⟩], true⟩
      "Alice" (-3) "D2" 0 ⟨"D", "Alice", 10, 4, 6, "Pending ⏳"⟩
      (by decide) (by decide) (by decide) (by decide),
   negative_payment_not_validated.2 ⟨[], true⟩ "Bob" 10 (-2) "D1"
      (by decide) (by decide)⟩

/-- C10: when several loaded rows carry the matched name,
`update_customer_add_payment` touches only the first (lowest-index) match:
the matched row at index `i` carries the key, every row before it does
not, and every persisted row other than index `i` is exactly the
serialization of its load-time value. -/
theorem apply_payment_first_match_only (store : RawTable) (name : String)
    (p : ℚ) (ov : Option ℚ) (d : String) (i : ℕ) (r : Row)
    (hne : normalize_name name ≠ "")
    (hfind : first_match_idx (normalize_name name) (load_data store) = some i)
    (hget : (load_data store)[i]? = some r) :
    r.customer_name = normalize_name name ∧
    (∀ k, k < i → ∀ x, (load_data store)[k]? = some x →
        x.customer_name ≠ normalize_name name) ∧
    ∃ s : RawTable,
      update_customer_add_payment store name p ov d = .ok s ∧
      ∀ j, j ≠ i → s.rows[j]? = ((load_data store)[j]?).map save_row := by
  refine ⟨?_, first_match_idx_min hfind, _, update_ok hne hfind hget, ?_⟩
  · obtain ⟨r', hr', hk⟩ := first_match_idx_some hfind
    rw [hget] at hr'
    cases hr'
    exact hk
  · intro j hj
    simp only [save_data, List.getElem?_map, List.getElem?_set_ne (Ne.symm hj)]

/-- Witness for C10: with two stored "Alice" rows, a payment addressed to
"alice" matches index 0; row 1 — the second "Alice" — is persisted exactly
as loaded. -/
theorem apply_payment_first_match_only_witness :
    (⟨"D1", "Alice", 10, 4, 6, "Pending ⏳"⟩ : Row).customer_name =
      normalize_name "alice" ∧
    (∀ k, k < 0 → ∀ x,
        (load_data ⟨[⟨"D1", "Alice", .num 10, .num 4, .num 6, "Pending ⏳"⟩,
          ⟨"D2", "Alice", .num 20, .num 0, .num 20, "Pending ⏳"⟩], true⟩)[k]? = some x →
        x.customer_name ≠ normalize_name "alice") ∧
    ∃ s : RawTable,
      update_customer_add_payment
          ⟨[⟨"D1", "Alice", .num 10, .num 4, .num 6, "Pending ⏳"⟩,
            ⟨"D2", "Alice", .num 20, .num 0, .num 20, "Pending ⏳"⟩], true⟩
          "alice" 1 none "D3" = .ok s ∧
      ∀ j, j ≠ 0 →
        s.rows[j]? =
          ((load_data ⟨[⟨"D1", "Alice", .num 10, .num 4, .num 6, "Pending ⏳"⟩,
            ⟨"D2", "Alice", .num 20, .num 0, .num 20, "Pending ⏳"⟩], true⟩)[j]?).map save_row :=
  apply_payment_first_match_only
    ⟨[⟨"D1", "Alice", .num 10, .num 4, .num 6, "Pending ⏳"⟩,
      ⟨"D2", "Alice", .num 20, .num 0, .num 20, "Pending ⏳"⟩], true⟩
    "alice" 1 none "D3" 0 ⟨"D1", "Alice", 10, 4, 6, "Pending ⏳"⟩
    (by decide) (by decide) (by decide)

/-- Rows serialized by `save_data` from an in-memory table whose statuses
are all derived keep that consistency cell-for-cell. -/
theorem save_data_consistent {df : List Row}
    (h : ∀ r ∈ df, r.status = compute_status r.balance_as_of_today) :
    ∀ (j : ℕ) (rr : RawRow), (save_data df).rows[j]? = some rr →
      rr.status = compute_status (toNumericCoerce rr.balance_as_of_today) := by
  intro j rr hj
  simp only [save_data, List.getElem?_map] at hj
  obtain ⟨r, hr, rfl⟩ := Option.map_eq_some'.mp hj
  exact h r (List.getElem?_mem hr)

/-- C2 counterexample: a trace entirely inside the core operations
persists a stale status.  `reconcile_table` saves an Alice row with
`amount_owed = 100, balance_paid = 0` and edited balance `0`
(status derived: Cleared).  The next operation's load recomputes the
balance to `100` but — the `STATUS` column being present — keeps the
stored "Cleared ✅", and `add_new_customer("Bob", ...)` persists that row
with balance `100` yet status "Cleared ✅", which differs from the derived
status of `100`. -/
theorem add_persists_stale_status_cex :
    add_new_customer (reconcile_table [⟨"D0", "Alice", 100, 0, 0, "Pending ⏳"⟩])
        "Bob" 50 0 "D1" =
      .ok ⟨[⟨"D0", "Alice", .num 100, .num 0, .num 100, "Cleared ✅"⟩,
            ⟨"D1", "Bob", .num 50, .num 0, .num 50, "Pending ⏳"⟩], true⟩ ∧
    "Cleared ✅" ≠ compute_status (toNumericCoerce (.num 100)) := by
  constructor
  · rfl
  · decide

/-- C2 amended: every save by `reconcile_table` has every row's status
equal to the derived function of its persisted balance; saves by
`add_new_customer` and `update_customer_add_payment` have that property
provided every loaded row already had a derived status — a proviso forced
by `load_data`, which recomputes balances but refreshes statuses only when
the stored table has no `STATUS` column, so a stale loaded status is
persisted verbatim for rows the operation did not modify. -/
theorem persisted_status_consistency_amended :
    (∀ (edited : List Row) (j : ℕ) (rr : RawRow),
        (reconcile_table edited).rows[j]? = some rr →
        rr.status = compute_status (toNumericCoerce rr.balance_as_of_today)) ∧
    (∀ (store : RawTable) (name : String) (a p : ℚ) (d : String) (s : RawTable),
        (∀ r ∈ load_data store, r.status = compute_status r.balance_as_of_today) →
        add_new_customer store name a p d = .ok s →
        ∀ (j : ℕ) (rr : RawRow), s.rows[j]? = some rr →
          rr.status = compute_status (toNumericCoerce rr.balance_as_of_today)) ∧
    (∀ (store : RawTable) (name : String) (p : ℚ) (ov : Option ℚ) (d : String)
        (s : RawTable),
        (∀ r ∈ load_data store, r.status = compute_status r.balance_as_of_today) →
        update_customer_add_payment store name p ov d = .ok s →
        ∀ (j : ℕ) (rr : RawRow), s.rows[j]? = some rr →
          rr.status = compute_status (toNumericCoerce rr.balance_as_of_today)) := by
  refine ⟨?_, ?_, ?_⟩
  · intro edited j rr hj
    refine save_data_consistent ?_ j rr hj
    intro r hr
    obtain ⟨r₀, _, rfl⟩ := List.mem_map.mp hr
    rfl
  · intro store name a p d s h hok
    simp only [add_new_customer] at hok
    split at hok
    · cases hok
    · split at hok
      · cases hok
      · cases hok
        refine save_data_consistent ?_
        intro r hr
        rcases List.mem_append.mp hr with hl | hl
        · exact h r hl
        · rw [List.mem_singleton.mp hl]
          rfl
  · intro store name p ov d s h hok
    simp only [update_customer_add_payment] at hok
    split at hok
    · cases hok
    · split at hok
      · cases hok
      · split at hok
        · cases hok
        · next r hr =>
          cases hok
          refine save_data_consistent ?_
          intro x hx
          rcases List.mem_or_eq_of_mem_set hx with hl | hl
          · exact h x hl
          · rw [hl]
            rfl

/-- Witness for C2's amended claim: each of the three operations applied
to concrete consistent inputs yields a row-wise derived status. -/
theorem persisted_status_consistency_amended_witness :
    ((⟨"D", "A", .num 5, .num 0, .num 0, "Cleared ✅"⟩ : RawRow).status =
      compute_status (toNumericCoerce
        (⟨"D", "A", .num 5, .num 0, .num 0, "Cleared ✅"⟩ : RawRow).balance_as_of_today)) ∧
    ((⟨"D1", "Bob", .num 50, .num 0, .num 50, "Pending ⏳"⟩ : RawRow).status =
      compute_status (toNumericCoerce
        (⟨"D1", "Bob", .num 50, .num 0, .num 50, "Pending ⏳"⟩ : RawRow).balance_as_of_today)) ∧
    ((⟨"D2", "Alice", .num 10, .num 7, .num 3, "Pending ⏳"⟩ : RawRow).status =
      compute_status (toNumericCoerce
        (⟨"D2", "Alice", .num 10, .num 7, .num 3, "Pending ⏳"⟩ : RawRow).balance_as_of_today)) :=
  ⟨persisted_status_consistency_amended.1 [⟨"D", "A", 5, 0, -2, "x"⟩] 0
      ⟨"D", "A", .num 5, .num 0, .num 0, "Cleared ✅"⟩ (by decide),
   persisted_status_consistency_amended.2.1 ⟨[], true⟩ "Bob" 50 0 "D1"
      ⟨[⟨"D1", "Bob", .num 50, .num 0, .num 50, "Pending ⏳"⟩], true⟩
      (by decide) (by rfl) 0
      ⟨"D1", "Bob", .num 50, .num 0, .num 50, "Pending ⏳"⟩ (by decide),
   persisted_status_consistency_amended.2.2
      ⟨[⟨"D0", "Alice", .num 10, .num 4, .num 6, "Pending ⏳"⟩], true⟩
      "Alice" 3 none "D2"
      ⟨[⟨"D2", "Alice", .num 10, .num 7, .num 3, "Pending ⏳"⟩], true⟩
      (by decide) (by rfl) 0
      ⟨"D2", "Alice", .num 10, .num 7, .num 3, "Pending ⏳"⟩ (by decide)⟩

/-- C3 counterexample: a stored table whose `AMOUNT OWED` cell is the
non-numeric `"abc"` and whose stored status is "Pending ⏳" loads with the
cell coerced to `0` and balance clipped to `0` — but the status stays the
stored "Pending ⏳", which is not the status derived from the clipped
balance `0`, because `load_data` keeps the `STATUS` column verbatim when
it is present. -/
theorem load_non_numeric_keeps_stored_status_cex :
    load_data ⟨[⟨"D", "Alice", .text "abc", .num 0, .num 0, "Pending ⏳"⟩], true⟩ =
      [⟨"D", "Alice", 0, 0, 0, "Pending ⏳"⟩] ∧
    "Pending ⏳" ≠ compute_status (max ((0 : ℚ) - 0) 0) := by
  decide

/-- C3 amended: a non-numeric `AMOUNT OWED` cell loads as `0`, and the
row's balance is `max(amount_owed - balance_paid, 0)` over the coerced
values; the row's status is derived from that clipped balance when the
stored table has no `STATUS` column — when the column is present the
stored status string is carried verbatim and may disagree. -/
theorem load_non_numeric_amount_amended (store : RawTable) (i : ℕ)
    (rr : RawRow)
    (hget : store.rows[i]? = some rr)
    (hnn : rr.amount_owed.isNum = false) :
    ∃ r : Row, (load_data store)[i]? = some r ∧
      r.amount_owed = 0 ∧
      r.balance_as_of_today = max (r.amount_owed - r.balance_paid) 0 ∧
      (store.hasStatusCol = false →
        r.status = compute_status r.balance_as_of_today) := by
  refine ⟨load_row store.hasStatusCol rr, ?_, ?_, rfl, ?_⟩
  · simp [load_data, hget]
  · cases hc : rr.amount_owed with
    | num q => rw [hc] at hnn; simp [Cell.isNum] at hnn
    | text s => simp [load_row, toNumericCoerce, hc]
    | missing => simp [load_row, toNumericCoerce, hc]
  · intro hcol
    rw [hcol]
    rfl

/-- Witness for C3's amended claim: a status-column-free table with a
non-numeric amount cell loads with amount `0`, clipped balance and derived
status. -/
theorem load_non_numeric_amount_amended_witness :
    ∃ r : Row,
      (load_data ⟨[⟨"D", "Ann", .text "abc", .num 2, .num 9, "S"⟩], false⟩)[0]? =
        some r ∧
      r.amount_owed = 0 ∧
      r.balance_as_of_today = max (r.amount_owed - r.balance_paid) 0 ∧
      ((⟨[⟨"D", "Ann", .text "abc", .num 2, .num 9, "S"⟩], false⟩ :
          RawTable).hasStatusCol = false →
        r.status = compute_status r.balance_as_of_today) :=
  load_non_numeric_amount_amended
    ⟨[⟨"D", "Ann", .text "abc", .num 2, .num 9, "S"⟩], false⟩ 0
    ⟨"D", "Ann", .text "abc", .num 2, .num 9, "S"⟩ (by decide) (by decide)

/-- C5 counterexample: a stored `AMOUNT OWED` of `-5` survives load as the
negative `-5` — `load_data` coerces the two input columns numerically but
never clips them, so not all three numeric fields are non-negative after
load. -/
theorem load_allows_negative_amount_cex :
    load_data ⟨[⟨"D", "Al", .num (-5), .num 0, .text "xyz", "S"⟩], true⟩ =
      [⟨"D", "Al", -5, 0, 0, "S"⟩] ∧
    ¬ (0 ≤ (-5 : ℚ)) := by
  decide

/-- C5 amended: after load, `balance_as_of_today` is non-negative and a
malformed (non-numeric) `AMOUNT OWED` or `BALANCE PAID` cell has become
zero; `amount_owed` and `balance_paid` themselves are only coerced, not
clipped, so negative stored values persist (and a malformed stored
`BALANCE AS OF TODAY` cell is discarded and recomputed rather than
zeroed). -/
theorem load_coercion_amended (hs : Bool) (rr : RawRow) :
    0 ≤ (load_row hs rr).balance_as_of_today ∧
    (rr.amount_owed.isNum = false → (load_row hs rr).amount_owed = 0) ∧
    (rr.balance_paid.isNum = false → (load_row hs rr).balance_paid = 0) := by
  refine ⟨le_max_right _ _, ?_, ?_⟩
  · intro h
    cases hc : rr.amount_owed with
    | num q => rw [hc] at h; simp [Cell.isNum] at h
    | text s => simp [load_row, toNumericCoerce, hc]
    | missing => simp [load_row, toNumericCoerce, hc]
  · intro h
    cases hc : rr.balance_paid with
    | num q => rw [hc] at h; simp [Cell.isNum] at h
    | text s => simp [load_row, toNumericCoerce, hc]
    | missing => simp [load_row, toNumericCoerce, hc]

/-- Witness for C5's amended claim on a row with a non-numeric amount and
a blank paid cell. -/
theorem load_coercion_amended_witness :
    0 ≤ (load_row true
      ⟨"D", "Al", .text "abc", .missing, .text "z", "S"⟩).balance_as_of_today ∧
    (load_row true
      ⟨"D", "Al", .text "abc", .missing, .text "z", "S"⟩).amount_owed = 0 ∧
    (load_row true
      ⟨"D", "Al", .text "abc", .missing, .text "z", "S"⟩).balance_paid = 0 :=
  ⟨(load_coercion_amended true
      ⟨"D", "Al", .text "abc", .missing, .text "z", "S"⟩).1,
   (load_coercion_amended true
      ⟨"D", "Al", .text "abc", .missing, .text "z", "S"⟩).2.1 (by decide),
   (load_coercion_amended true
      ⟨"D", "Al", .text "abc", .missing, .text "z", "S"⟩).2.2 (by decide)⟩

/-- C7 counterexample: a stored table whose balance cell (`5`) differs
from `max(amount_owed - balance_paid, 0) = 10` — exactly the kind of table
`reconcile_table` persists — is changed by `save(load(·))`: the balance
cell is rewritten to `10`. -/
theorem save_load_not_noop_cex :
    save_data (load_data
        ⟨[⟨"D", "Alice", .num 10, .num 0, .num 5, "Pending ⏳"⟩], true⟩) ≠
      ⟨[⟨"D", "Alice", .num 10, .num 0, .num 5, "Pending ⏳"⟩], true⟩ := by
  decide

/-- A row whose numeric cells parse and whose balance cell already equals
the recomputation round-trips through load and save unchanged. -/
theorem save_load_row {rr : RawRow}
    (ha : rr.amount_owed.isNum = true) (hp : rr.balance_paid.isNum = true)
    (hb : rr.balance_as_of_today =
      .num (max (toNumericCoerce rr.amount_owed -
        toNumericCoerce rr.balance_paid) 0)) :
    save_row (load_row true rr) = rr := by
  obtain ⟨d, n, ca, cp, cb, st⟩ := rr
  cases ca with
  | num a =>
    cases cp with
    | num p =>
      simp only [toNumericCoerce] at hb
      subst hb
      rfl
    | text s => simp [Cell.isNum] at hp
    | missing => simp [Cell.isNum] at hp
  | text s => simp [Cell.isNum] at ha
  | missing => simp [Cell.isNum] at ha

/-- Row-wise extension of `save_load_row` to whole row lists. -/
theorem save_load_rows (rows : List RawRow)
    (h : ∀ rr ∈ rows, rr.amount_owed.isNum = true ∧
      rr.balance_paid.isNum = true ∧
      rr.balance_as_of_today = .num (max (toNumericCoerce rr.amount_owed -
        toNumericCoerce rr.balance_paid) 0)) :
    rows.map (fun rr => save_row (load_row true rr)) = rows := by
  induction rows with
  | nil => rfl
  | cons rr rs ih =>
    rw [List.map_cons,
      save_load_row (h rr (List.mem_cons_self _ _)).1
        (h rr (List.mem_cons_self _ _)).2.1
        (h rr (List.mem_cons_self _ _)).2.2,
      ih (fun x hx => h x (List.mem_cons_of_mem _ hx))]

/-- C7 amended: `save(load(·))` is a no-op on stored tables that have the
full canonical column set (`STATUS` present), numerically parseable cells,
and a balance cell equal to `max(amount_owed - balance_paid, 0)` in every
row.  On any other stored table, load's unconditional balance
recomputation (or cell coercion, or column insertion) changes the
contents, as the counterexample shows. -/
theorem save_load_roundtrip_amended (store : RawTable)
    (hcol : store.hasStatusCol = true)
    (hrows : ∀ rr ∈ store.rows, rr.amount_owed.isNum = true ∧
      rr.balance_paid.isNum = true ∧
      rr.balance_as_of_today = .num (max (toNumericCoerce rr.amount_owed -
        toNumericCoerce rr.balance_paid) 0)) :
    save_data (load_data store) = store := by
  obtain ⟨rows, hs⟩ := store
  replace hcol : hs = true := hcol
  subst hcol
  simp only [load_data, save_data, List.map_map]
  congr 1
  exact save_load_rows rows hrows

/-- Witness for C7's amended claim: a consistent stored table round-trips
unchanged. -/
theorem save_load_roundtrip_amended_witness :
    save_data (load_data
        ⟨[⟨"D", "Alice", .num 10, .num 4, .num 6, "Pending ⏳"⟩,
          ⟨"E", "Bob", .num 3, .num 7, .num 0, "Cleared ✅"⟩], true⟩) =
      ⟨[⟨"D", "Alice", .num 10, .num 4, .num 6, "Pending ⏳"⟩,
        ⟨"E", "Bob", .num 3, .num 7, .num 0, "Cleared ✅"⟩], true⟩ :=
  save_load_roundtrip_amended
    ⟨[⟨"D", "Alice", .num 10, .num 4, .num 6, "Pending ⏳"⟩,
      ⟨"E", "Bob", .num 3, .num 7, .num 0, "Cleared ✅"⟩], true⟩
    rfl (by decide)

end DebtTracker
